import Mathlib

/-!
Shallow embedding of `src/Funpay-Steam-AutoPoints/bot_point.py`.

Python integers that may be `None` (chat ids, buyer ids) are modelled as
`Option Nat`; Python truthiness (`if chat_id:`) is `truthy` below, which is
false both for `None` and for `0`.  The two module-level dictionaries
`STATE_BY_CHAT` and `USER_TO_CHATS` become the `Store` structure with
function-valued fields (an absent key and an empty reverse-index set are
identified, which is faithful because `_pop_state_by_chat` deletes a
buyer's entry as soon as its set becomes empty).  Side effects (marketplace
messages, refund calls, worker dispatch, the provider HTTP call, balance
probing, lot deactivation) are recorded as an explicit `Effect` list;
message texts are abstracted to one `MsgTag` constructor per
`account.send_message` call site.  Environment-derived globals are gathered
in `Config`.  Strings are handled at ASCII/Cyrillic level: `pyStrip` models
`str.strip`, `pyInt` models `int(...)` on strings, and `foldChar` models
`re.IGNORECASE` simple case folding (exotic Unicode case folds are out of
scope).
-/

namespace BotPoint

/-- Python `int | None` identifiers (chat ids, buyer ids, author ids). -/
abbrev PyId := Option Nat

/-- Python truthiness of an optional integer: `None` and `0` are falsy. -/
def truthy : PyId → Bool
  | none => false
  | some n => n != 0

/-- One conversation state dictionary, as built in `handle_new_order`
(lines 553-559): keys `step`, `order_id`, `chat_id`, `buyer_id`, `points`,
and the later-added `steam_link`.  `step` is kept as a string exactly as in
the source (`"waiting_link"` / `"confirm_order"`). -/
structure ConvState where
  step : String
  order_id : Option Nat
  chat_id : PyId
  buyer_id : PyId
  points : Int
  steam_link : Option String
deriving DecidableEq, Repr

/-- The two module-level maps `STATE_BY_CHAT` and `USER_TO_CHATS`
(lines 127-128).  `userToChats` returns the buyer's set of chat ids as a
duplicate-free list. -/
structure Store where
  stateByChat : PyId → Option ConvState
  userToChats : PyId → List PyId

/-- The store holding no conversation state at all. -/
def emptyStore : Store := { stateByChat := fun _ => none, userToChats := fun _ => [] }

/-- Python `set.add`: insert a chat id if it is not already present. -/
def insertChat (c : PyId) (l : List PyId) : List PyId :=
  if c ∈ l then l else c :: l

/-- `_bind_state` (lines 137-142): key the state by its own `chat_id` and
add that chat id to the buyer's reverse-index set. -/
def bindState (σ : Store) (st : ConvState) : Store :=
  { stateByChat := fun x => if x = st.chat_id then some st else σ.stateByChat x,
    userToChats := fun u =>
      if u = st.buyer_id then insertChat st.chat_id (σ.userToChats u) else σ.userToChats u }

/-- `_get_state` (lines 144-151): direct lookup guarded by truthiness of
`chat_id`, then the buyer fallback that only fires when the buyer has
exactly one open chat (`next(iter(...))` of a singleton set is its unique
element, here the head of the singleton list). -/
def getState (σ : Store) (chat user : PyId) : Option ConvState :=
  if truthy chat ∧ (σ.stateByChat chat).isSome then σ.stateByChat chat
  else if truthy user ∧ (σ.userToChats user).length = 1 then
    match (σ.userToChats user).head? with
    | some c => σ.stateByChat c
    | none => none
  else none

/-- `_pop_state_by_chat` (lines 153-161): remove the state if present and
discard the chat id from the popped state's buyer's reverse-index set. -/
def popStateByChat (σ : Store) (chat : PyId) : Store :=
  match σ.stateByChat chat with
  | none => σ
  | some st =>
    { stateByChat := fun x => if x = chat then none else σ.stateByChat x,
      userToChats := fun u =>
        if u = st.buyer_id then (σ.userToChats u).filter (fun x => x != chat)
        else σ.userToChats u }

/-- In-place mutation of a state dictionary held in `STATE_BY_CHAT`
(e.g. `state["steam_link"] = link` in `handle_new_message`): the store's
entry under the state's own chat id is replaced. -/
def setStateByChat (σ : Store) (chat : PyId) (st : ConvState) : Store :=
  { σ with stateByChat := fun x => if x = chat then some st else σ.stateByChat x }

/-- Environment-derived configuration globals (lines 16-42, 178-179). -/
structure Config where
  category_id : Nat
  min_points : Int
  auto_refund : Bool
  auto_deactivate : Bool
  bsp_min_balance : ℚ
  deactivate_category_id : Nat
  allow_title_detection : Bool
  fixed_lot_by_id : List (String × Int)

/-! ### String helpers: Python `strip`, `int(...)`, case folding -/

/-- Python `str.strip()` on a character list (ASCII whitespace level). -/
def pyStrip (l : List Char) : List Char :=
  ((l.dropWhile Char.isWhitespace).reverse.dropWhile Char.isWhitespace).reverse

/-- Python `str.strip()` at string level. -/
def pyStripStr (s : String) : String := String.mk (pyStrip s.data)

/-- Simple case folding used to model `re.IGNORECASE`: ASCII `A-Z` and
Cyrillic `А-Я`/`Ё` are mapped to their lowercase forms. -/
def foldChar (c : Char) : Char :=
  if 65 ≤ c.toNat ∧ c.toNat ≤ 90 then Char.ofNat (c.toNat + 32)
  else if 0x410 ≤ c.toNat ∧ c.toNat ≤ 0x42F then Char.ofNat (c.toNat + 0x20)
  else if c.toNat = 0x401 then Char.ofNat 0x451
  else c

/-- Python `\w` (word character) at ASCII/Cyrillic level. -/
def isWordChar (c : Char) : Bool :=
  c.isAlphanum || c == '_' || (0x400 ≤ c.toNat && c.toNat ≤ 0x4FF)

/-- Decimal value of a digit list. -/
def digitsToNat (l : List Char) : Nat :=
  l.foldl (fun a c => a * 10 + (c.toNat - 48)) 0

/-- Tail of a valid Python integer literal body: digits with single
underscores allowed between digits. -/
def intTail : List Char → Bool
  | [] => true
  | '_' :: cs =>
    match cs with
    | [] => false
    | c :: cs2 => c.isDigit && intTail cs2
  | c :: cs => c.isDigit && intTail cs

/-- A valid Python integer literal body (no sign): nonempty, starts with a
digit, single underscores only between digits. -/
def intBody : List Char → Bool
  | [] => false
  | c :: cs => c.isDigit && intTail cs

/-- Magnitude of an integer literal body, ignoring underscores. -/
def intMagnitude (l : List Char) : Nat := digitsToNat (l.filter (fun c => c != '_'))

/-- Python `int(s)` on a string: tolerates surrounding whitespace and an
optional sign; any other failure is `none` (a raised `ValueError`). -/
def pyInt (s : String) : Option Int :=
  match pyStrip s.data with
  | '+' :: rest => if intBody rest then some (intMagnitude rest : Int) else none
  | '-' :: rest => if intBody rest then some (-(intMagnitude rest : Int)) else none
  | l => if intBody l then some (intMagnitude l : Int) else none

/-! ### Title regexes (lines 181-183)

`RE_PTS_IN_TITLE  = (?<!\d)(\d{3,7})\s*(?:очк|очков|points)\b` (IGNORECASE)
`RE_FROM_IN_TITLE = \bот\s*\d+` (IGNORECASE)
`RE_ANY_NUMBER    = (?<!\d)(\d{3,7})(?!\d)`

The matchers below are deterministic unfoldings of the backtracking
search: after a maximal digit run, taking fewer digits always leaves a
digit in front of the literal/lookahead, so no shorter run can match, and
positions inside a digit run are excluded by the `(?<!\d)` lookbehind. -/

/-- Case-insensitively match `pat` (given lowercase) as a literal at the
front of `l`, returning the rest. -/
def dropLitFold : List Char → List Char → Option (List Char)
  | [], l => some l
  | _ :: _, [] => none
  | p :: ps, c :: cs => if foldChar c = p then dropLitFold ps cs else none

/-- Match a literal and then a `\b` word boundary (the next character, if
any, is not a word character). -/
def litThenBoundary (pat : List Char) (l : List Char) : Bool :=
  match dropLitFold pat l with
  | none => false
  | some rest =>
    match rest.head? with
    | none => true
    | some c => !isWordChar c

/-- Attempt `RE_PTS_IN_TITLE` (minus the lookbehind) at the current
position; returns the captured number on success. -/
def matchPtsAt (l : List Char) : Option Nat :=
  let run := l.takeWhile Char.isDigit
  if 3 ≤ run.length ∧ run.length ≤ 7 then
    let rest := (l.drop run.length).dropWhile Char.isWhitespace
    if litThenBoundary "очк".data rest || litThenBoundary "очков".data rest ||
        litThenBoundary "points".data rest
    then some (digitsToNat run) else none
  else none

/-- `RE_PTS_IN_TITLE.search`: first match, scanning left to right with the
`(?<!\d)` lookbehind tracked through the previous character. -/
def searchPtsAux : Option Char → List Char → Option Nat
  | _, [] => none
  | prev, c :: cs =>
    if (match prev with | none => true | some p => !p.isDigit) then
      match matchPtsAt (c :: cs) with
      | some n => some n
      | none => searchPtsAux (some c) cs
    else searchPtsAux (some c) cs

/-- First `RE_PTS_IN_TITLE` match in a title. -/
def searchPts (l : List Char) : Option Nat := searchPtsAux none l

/-- Attempt `RE_FROM_IN_TITLE` (minus the leading `\b`) at the current
position: the literal `от`, optional whitespace, at least one digit. -/
def matchFromAt : List Char → Bool
  | c1 :: c2 :: rest =>
    foldChar c1 = 'о' && foldChar c2 = 'т' &&
      (match (rest.dropWhile Char.isWhitespace).head? with
       | some d => d.isDigit
       | none => false)
  | _ => false

/-- Scan for `RE_FROM_IN_TITLE`, tracking the previous character for the
`\b` boundary (`о` is a word character, so the previous one must not be). -/
def searchFromAux : Option Char → List Char → Bool
  | _, [] => false
  | prev, c :: cs =>
    ((match prev with | none => true | some p => !isWordChar p) && matchFromAt (c :: cs))
    || searchFromAux (some c) cs

/-- Whether `RE_FROM_IN_TITLE` matches anywhere in a title. -/
def searchFrom (l : List Char) : Bool := searchFromAux none l

/-- Maximal digit runs of a character list, left to right. -/
def digitRunsAux (cur : List Char) : List Char → List (List Char)
  | [] => if cur.isEmpty then [] else [cur.reverse]
  | c :: cs =>
    if c.isDigit then digitRunsAux (c :: cur) cs
    else if cur.isEmpty then digitRunsAux [] cs
    else cur.reverse :: digitRunsAux [] cs

/-- Maximal digit runs of a character list. -/
def digitRuns (l : List Char) : List (List Char) := digitRunsAux [] l

/-- `RE_ANY_NUMBER.findall` followed by `int(...)`: every maximal digit
run of length 3 to 7 (longer runs fail both lookarounds at every start
position), in order of appearance. -/
def anyNumbers (l : List Char) : List Nat :=
  ((digitRuns l).filter (fun r => decide (3 ≤ r.length ∧ r.length ≤ 7))).map digitsToNat

/-! ### Quantity Resolver (lines 185-295) -/

/-- An Order Snapshot as consumed by the resolver and driver.  `lot_id` is
the stringified result of `_get_lot_id`'s attribute probing (lines
185-200); `amount` is the raw item count as an optional string so that
`int(...)` failure ("unparsable") is representable. -/
structure Order where
  id : Option Nat
  subcategory_id : Option Nat
  chat_id : PyId
  buyer_id : PyId
  title : Option String
  buyer_params : List (String × String)
  amount : Option String
  lot_id : Option String

/-- Lines 206-212: the configured per-lot multiplier, guarded by the
truthiness of `lot_id` (an empty string is falsy). -/
def fixedByLot (cfg : Config) (o : Order) : Option Int :=
  match o.lot_id with
  | none => none
  | some lid => if lid.isEmpty then none else cfg.fixed_lot_by_id.lookup lid

/-- The stripped order title (`(getattr(order, "title", "") or "").strip()`). -/
def orderTitle (o : Order) : List Char := pyStrip ((o.title.getD "").data)

/-- Lines 231-251: the largest embedded 3-to-7-digit number that is at
least `MIN_POINTS` and a multiple of 100, if any. -/
def titleCandidates (cfg : Config) (title : List Char) : Option Int :=
  let cands := (anyNumbers title).filter
    (fun n => decide (cfg.min_points ≤ (n : Int) ∧ n % 100 = 0))
  match cands.max? with
  | some v => some (v : Int)
  | none => none

/-- `_detect_fixed_unit_points` (lines 202-253), dropping the log-only
provenance tag of the returned pair. -/
def detect_fixed_unit_points (cfg : Config) (o : Order) : Option Int :=
  match fixedByLot cfg o with
  | some v => some v
  | none =>
    if !cfg.allow_title_detection then none
    else
      let title := orderTitle o
      if searchFrom title then none
      else
        match searchPts title with
        | some n =>
          if cfg.min_points ≤ (n : Int) ∧ n % 100 = 0 then some (n : Int)
          else titleCandidates cfg title
        | none => titleCandidates cfg title

/-- One buyer parameter value: `int(str(v).strip().replace(" ", ""))`. -/
def paramValue (v : String) : Option Int :=
  pyInt (String.mk ((pyStrip v.data).filter (fun c => c != ' ')))

/-- The buyer-parameter scan of `get_points_strict` (lines 256-264): first
parsable positive integer wins; a non-positive parse falls through. -/
def scanParams : List (String × String) → Option Int
  | [] => none
  | (_, v) :: rest =>
    match paramValue v with
    | some n => if 0 < n then some n else scanParams rest
    | none => scanParams rest

/-- `get_points_strict` (lines 255-275): buyer parameters, then the raw
item count if it is a truthy integer at least 1. -/
def get_points_strict (o : Order) : Option Int :=
  match scanParams o.buyer_params with
  | some n => some n
  | none =>
    match o.amount.bind pyInt with
    | some a => if 1 ≤ a then some a else none
    | none => none

/-- Lines 281-287: the order's raw item count, defaulting to 1 when absent
or unparsable and floored at 1. -/
def pyUnits (amount : Option String) : Int :=
  let u : Int :=
    match amount with
    | none => 1
    | some a => (pyInt a).getD 1
  if u < 1 then 1 else u

/-- `get_points` (lines 277-295), dropping the log-only provenance tag: a
truthy fixed per-unit value is multiplied by the item count; otherwise the
strict resolver runs. -/
def get_points (cfg : Config) (o : Order) : Option Int :=
  match detect_fixed_unit_points cfg o with
  | some u => if u ≠ 0 then some (u * pyUnits o.amount) else get_points_strict o
  | none => get_points_strict o

/-! ### Destination Validator (lines 130-133, 361-362)

`RE_STEAM_LINK` anchors `https?://(www\.)?steamcommunity\.com/(id|profiles)/`
followed by one or more characters from the class of ASCII letters, digits,
underscore, dot, slash and hyphen, up to end of input (`^...$`), with
`re.IGNORECASE`, applied via `re.match` to the stripped input.  Case
insensitivity is handled by folding the input first, so the matcher below
works on lowercase text; `$` is plain end-of-input because the input has
already been stripped of trailing whitespace (including newlines).  The
optional pieces (`s?`, `(www\.)?`) are deterministic: on greedy failure the
following literal starts with a different character, so backtracking can
never succeed. -/

/-- Match a literal at the front of a character list, returning the rest. -/
def dropLit : List Char → List Char → Option (List Char)
  | [], l => some l
  | _ :: _, [] => none
  | p :: ps, c :: cs => if c = p then dropLit ps cs else none

/-- Greedily consume an optional literal. -/
def optTake (pat l : List Char) : List Char :=
  match dropLit pat l with
  | some r => r
  | none => l

/-- The `(id|profiles)/` alternation, tried left to right. -/
def pathSplit (l : List Char) : Option (List Char) :=
  match dropLit "id/".data l with
  | some r => some r
  | none => dropLit "profiles/".data l

/-- One character of the trailing letters-digits-underscore-dot-slash-hyphen
class, on folded (lowercase) text. -/
def steamTokenChar (c : Char) : Bool :=
  c.isLower || c.isDigit || c == '_' || c == '.' || c == '/' || c == '-'

/-- `RE_STEAM_LINK` on stripped, case-folded text. -/
def reSteamLinkMatch (l : List Char) : Bool :=
  match dropLit "http".data l with
  | none => false
  | some l1 =>
    match dropLit "://".data (optTake ['s'] l1) with
    | none => false
    | some l3 =>
      match dropLit "steamcommunity.com/".data (optTake "www.".data l3) with
      | none => false
      | some l5 =>
        match pathSplit l5 with
        | none => false
        | some l6 => !l6.isEmpty && l6.all steamTokenChar

/-- Strip then case-fold, the normalization applied before matching. -/
def normalizeLink (s : String) : List Char := (pyStrip s.data).map foldChar

/-- `_steam_link_valid` (lines 361-362). -/
def steam_link_valid (s : String) : Bool := reSteamLinkMatch (normalizeLink s)

/-! ### Fulfillment Gateway (lines 297-356) -/

/-- A decoded JSON value, at the depth `bsp_create_order` inspects. -/
inductive JVal where
  | jnull
  | jbool (b : Bool)
  | jnum (q : ℚ)
  | jstr (s : String)
deriving DecidableEq

/-- Python truthiness of a decoded JSON value (`bool(data.get("success"))`;
a missing key yields `None`, i.e. `jnull`). -/
def JVal.truthy : JVal → Bool
  | .jnull => false
  | .jbool b => b
  | .jnum q => q != 0
  | .jstr s => !s.isEmpty

/-- The provider's HTTP response as seen by `bsp_create_order`: a status
code, the decoded JSON object (`none` when `r.json()` raises), and the raw
text used for error reporting. -/
structure HttpResp where
  status : Int
  body : Option (List (String × JVal))
  text : String
deriving DecidableEq

/-- `bsp_create_order` (lines 297-323).  The oracle argument is the
outcome of `requests.post`: `none` models a raised transport exception or
timeout.  Returns `(ok, data, r)` exactly as the source does; the function
is total, so no fault ever propagates to the caller. -/
def bsp_create_order (resp : Option HttpResp) :
    Bool × List (String × JVal) × Option HttpResp :=
  match resp with
  | none => (false, [("error", JVal.jstr "HTTP error")], none)
  | some r =>
    let data := r.body.getD []
    let ok := (r.status == 200) && ((data.lookup "success").getD JVal.jnull).truthy
    (ok, data, some r)

/-! ### Effects -/

/-- The two quantity-rejection messages composed in `handle_new_order`. -/
inductive QtyErr where
  | missing
  | invalid (points : Int)
deriving DecidableEq

/-- One constructor per `account.send_message` call site. -/
inductive MsgTag where
  | askSteamLink
  | invalidLinkAwaiting
  | linkAccepted
  | invalidLinkConfirm
  | linkUpdated
  | checkOrderStatus
  | bspSuccess (points : Int) (link : String)
  | internalError
  | bspFailRefunding (err : String)
  | refundDone
  | refundFailed
  | bspFailNoAutoRefund (err : String)
  | qtyRefundNote (e : QtyErr) (auto : Bool)
  | qtyContactSupport (e : QtyErr)
deriving DecidableEq

/-- Observable side effects of the driver, in execution order. -/
inductive Effect where
  | send (chat : PyId) (msg : MsgTag)
  | refund (order : Option Nat)
  | dispatch (st : ConvState)
  | bspCreate (points : Int) (link : String)
  | balanceQuery
  | deactivate (cat : Nat)
deriving DecidableEq

/-! ### Compensation Controller (lines 364-372, 452-480) -/

/-- `_nice_refund` (lines 364-372): message the buyer (only when the chat
id is truthy), then request the refund; a raised `account.refund` is
caught, so the attempt is recorded unconditionally. -/
def nice_refund (cfg : Config) (chat : PyId) (order : Option Nat) (e : QtyErr) : List Effect :=
  (if truthy chat then [Effect.send chat (.qtyRefundNote e cfg.auto_refund)] else [])
  ++ [Effect.refund order]

/-- `_after_bsp_failure` (lines 452-480).  `refundRaises` is the oracle
for whether `account.refund` raises; `bal` is the oracle result of
`bsp_check_balance()` (`none` means the balance could not be determined).
Deactivation is recorded as the invocation of `deactivate_category` on the
configured category (lines 374-450 delegate to the marketplace
collaborator lot by lot, best effort). -/
def after_bsp_failure (cfg : Config) (st : ConvState) (err : String)
    (refundRaises : Bool) (bal : Option ℚ) : List Effect :=
  let chat := st.chat_id
  (if cfg.auto_refund then
    [Effect.send chat (.bspFailRefunding err), Effect.refund st.order_id] ++
      (if refundRaises then [Effect.send chat .refundFailed]
       else [Effect.send chat .refundDone])
   else [Effect.send chat (.bspFailNoAutoRefund err)])
  ++ [Effect.balanceQuery] ++
  (match bal with
   | none => []
   | some b =>
     if b < cfg.bsp_min_balance then
       (if cfg.auto_deactivate then [Effect.deactivate cfg.deactivate_category_id] else [])
     else [])

/-! ### State Machine Driver (lines 482-636) -/

/-- Oracles consumed by one worker run: the provider response, whether an
exception interrupts the `try` block (e.g. a failed `send_message`),
whether `account.refund` raises, and the probed balance. -/
structure WorkerOracle where
  resp : Option HttpResp
  exc : Bool
  refundRaises : Bool
  bal : Option ℚ

/-- Python `str(...)` rendering of a decoded JSON value. -/
def JVal.asText : JVal → String
  | .jnull => "None"
  | .jbool b => if b then "True" else "False"
  | .jnum q => toString q
  | .jstr s => s

/-- The `err` text computed at line 491:
`data.get("error") or (r.text[:200] if r is not None else "Unknown error")`. -/
def bspErrText (data : List (String × JVal)) (r : Option HttpResp) : String :=
  let fallback := match r with
    | some rr => rr.text.take 200
    | none => "Unknown error"
  match data.lookup "error" with
  | some v => if v.truthy then v.asText else fallback
  | none => fallback

/-- `_process_bsp_order` (lines 482-513), run on a worker thread with a
copy of the conversation state.  The `finally` clause releases the live
state under the copy's chat id on every path, including the exception
path. -/
def process_bsp_order (cfg : Config) (σ : Store) (st : ConvState) (w : WorkerOracle) :
    Store × List Effect :=
  let chat := st.chat_id
  let effs :=
    if w.exc then [Effect.send chat .internalError]
    else
      let res := bsp_create_order w.resp
      Effect.bspCreate st.points (st.steam_link.getD "") ::
        (if res.1 then [Effect.send chat (.bspSuccess st.points (st.steam_link.getD ""))]
         else after_bsp_failure cfg st (bspErrText res.2.1 res.2.2) w.refundRaises w.bal)
  (popStateByChat σ chat, effs)

/-- `handle_new_order` (lines 515-569). -/
def handle_new_order (cfg : Config) (σ : Store) (o : Order) : Store × List Effect :=
  if o.subcategory_id ≠ some cfg.category_id then (σ, [])
  else
    match get_points cfg o with
    | none =>
      if cfg.auto_refund then (σ, nice_refund cfg o.chat_id o.id .missing)
      else (σ, [Effect.send o.chat_id (.qtyContactSupport .missing)])
    | some points =>
      if points < cfg.min_points ∨ points % 100 ≠ 0 then
        if cfg.auto_refund then (σ, nice_refund cfg o.chat_id o.id (.invalid points))
        else (σ, [Effect.send o.chat_id (.qtyContactSupport (.invalid points))])
      else
        let st : ConvState :=
          { step := "waiting_link", order_id := o.id, chat_id := o.chat_id,
            buyer_id := o.buyer_id, points := points, steam_link := none }
        (bindState σ st, [Effect.send o.chat_id .askSteamLink])

/-- A New-Message event payload. -/
structure Message where
  author_id : PyId
  chat_id : PyId
  text : Option String

/-- The stripped message text (`(getattr(message, "text", "") or "").strip()`). -/
def msgText (m : Message) : String := pyStripStr (m.text.getD "")

/-- `handle_new_message` (lines 571-636).  A message that resolves no
state is ignored (line 578 returns without replying); the final
`check your order status` notice (lines 632-636) is reached only for a
resolved state whose step is neither `waiting_link` nor `confirm_order`.
Replies go to the message's chat id, while state mutation happens under
the resolved state's own chat id (the dictionary object is shared).  On
confirmation the worker is dispatched with `state.copy()` and the live
state is left in place. -/
def handle_new_message (σ : Store) (m : Message) : Store × List Effect :=
  let text := msgText m
  match getState σ m.chat_id m.author_id with
  | none => (σ, [])
  | some st =>
    if st.step = "waiting_link" then
      if !steam_link_valid text then (σ, [Effect.send m.chat_id .invalidLinkAwaiting])
      else
        (setStateByChat σ st.chat_id { st with steam_link := some text, step := "confirm_order" },
         [Effect.send m.chat_id .linkAccepted])
    else if st.step = "confirm_order" then
      if text = "+" then (σ, [Effect.dispatch st])
      else if !steam_link_valid text then (σ, [Effect.send m.chat_id .invalidLinkConfirm])
      else
        (setStateByChat σ st.chat_id { st with steam_link := some text },
         [Effect.send m.chat_id .linkUpdated])
    else (σ, [Effect.send m.chat_id .checkOrderStatus])

/-! ### Sample data for witnesses -/

/-- A configuration holding the source defaults (category 714, minimum 100
points, auto-refund and auto-deactivation on, balance threshold 5.0). -/
def sampleCfg : Config :=
  { category_id := 714, min_points := 100, auto_refund := true, auto_deactivate := true,
    bsp_min_balance := 5, deactivate_category_id := 714, allow_title_detection := true,
    fixed_lot_by_id := [] }

/-! ### Claims -/

/-- Claim C7: the Fulfillment Gateway's submit reports success exactly when
the HTTP response has status 200 and the decoded body has a truthy
`success` field; a transport exception or timeout (`resp = none`) yields
the failure triple with the best-effort error dictionary; an undecodable
body decodes to the empty dictionary whose `success` lookup is falsy.  The
Lean function is total, so no exception propagates to the caller. -/
theorem C7_bsp_submit_success_iff (resp : Option HttpResp) :
    ((bsp_create_order resp).1 = true ↔
      ∃ r body, resp = some r ∧ r.status = 200 ∧ r.body = some body ∧
        ((body.lookup "success").getD JVal.jnull).truthy = true) ∧
    (resp = none →
      bsp_create_order resp = (false, [("error", JVal.jstr "HTTP error")], none)) := by
  constructor
  · cases resp with
    | none => simp [bsp_create_order]
    | some r =>
      cases hb : r.body with
      | none => simp [bsp_create_order, hb, JVal.truthy]
      | some body =>
        simp only [bsp_create_order, hb, Option.getD_some]
        constructor
        · intro h
          rcases Bool.and_eq_true .. |>.mp h with ⟨h1, h2⟩
          exact ⟨r, body, rfl, by exact_mod_cast beq_iff_eq.mp h1, hb, h2⟩
        · rintro ⟨r', body', hr, hs, hb', ht⟩
          cases hr
          rw [hb] at hb'
          cases hb'
          simp [hs, ht]
  · rintro rfl
    rfl

/-- Witness for C7 at the transport-failure input. -/
theorem C7_witness :
    bsp_create_order none = (false, [("error", JVal.jstr "HTTP error")], none) :=
  (C7_bsp_submit_success_iff none).2 rfl

/-- Claim C1: whatever the refund outcome (refund succeeded, refund raised,
or auto-refund disabled — all choices of `cfg.auto_refund` and
`refundRaises`), `_after_bsp_failure` queries the provider balance; when
the balance is unknown no deactivation happens; when it is below the
threshold and auto-deactivation is on, `deactivate_category` is invoked on
the configured category. -/
theorem C1_compensation_balance_deactivation (cfg : Config) (st : ConvState) (err : String)
    (rr : Bool) (bal : Option ℚ) :
    Effect.balanceQuery ∈ after_bsp_failure cfg st err rr bal ∧
    (bal = none → ∀ c, Effect.deactivate c ∉ after_bsp_failure cfg st err rr bal) ∧
    (∀ b, bal = some b → b < cfg.bsp_min_balance → cfg.auto_deactivate = true →
      Effect.deactivate cfg.deactivate_category_id ∈ after_bsp_failure cfg st err rr bal) := by
  refine ⟨?_, ?_, ?_⟩
  · unfold after_bsp_failure
    cases cfg.auto_refund <;> cases rr <;> simp
  · rintro rfl c
    unfold after_bsp_failure
    cases cfg.auto_refund <;> cases rr <;> simp
  · rintro b rfl hlt hda
    unfold after_bsp_failure
    cases cfg.auto_refund <;> cases rr <;> simp [hlt, hda]

/-- Witness for C1: refund raised, balance 1 below threshold 5,
deactivation of category 714 is triggered. -/
theorem C1_witness :
    Effect.deactivate 714 ∈
      after_bsp_failure sampleCfg
        { step := "confirm_order", order_id := some 9, chat_id := some 1,
          buyer_id := some 2, points := 500, steam_link := some "x" } "err" true (some 1) :=
  (C1_compensation_balance_deactivation sampleCfg _ "err" true (some 1)).2.2 1 rfl
    (by decide) rfl

/-- Claim C2 (amended): a message whose conversation id and author id
resolve to no open state is ignored outright — the store is unchanged and
no message at all is sent (line 578 returns before any reply). -/
theorem C2_amended_unresolved_message_silent (σ : Store) (m : Message)
    (h : getState σ m.chat_id m.author_id = none) :
    handle_new_message σ m = (σ, []) := by
  unfold handle_new_message
  rw [h]

/-- Witness for C2 at a concrete unresolvable message. -/
theorem C2_witness :
    handle_new_message emptyStore
      { author_id := some 2, chat_id := some 1, text := some "hello" } =
      (emptyStore, []) :=
  C2_amended_unresolved_message_silent emptyStore _ (by decide)

/-- Counterexample to C2 as stated: for a message resolving to no open
state the claimed generic check-your-order-status notice is not sent — no
effect is produced at all. -/
theorem C2_counterexample :
    getState emptyStore (some 1) (some 2) = none ∧
    (handle_new_message emptyStore
      { author_id := some 2, chat_id := some 1, text := some "hello" }).2 = [] ∧
    Effect.send (some 1) MsgTag.checkOrderStatus ∉
      (handle_new_message emptyStore
        { author_id := some 2, chat_id := some 1, text := some "hello" }).2 := by
  refine ⟨by decide, by decide, by decide⟩

/-- Claim C3: a new order in the target subcategory whose resolved
quantity is absent, below the minimum, or not a multiple of 100 creates no
conversation state (the store is returned unchanged); with auto-refund
enabled a refund for the order is requested, otherwise an error message
directing the buyer to support is sent to the order's chat. -/
theorem C3_invalid_quantity_rejected (cfg : Config) (σ : Store) (o : Order)
    (hsub : o.subcategory_id = some cfg.category_id)
    (hbad : get_points cfg o = none ∨
      ∃ n, get_points cfg o = some n ∧ (n < cfg.min_points ∨ n % 100 ≠ 0)) :
    (handle_new_order cfg σ o).1 = σ ∧
    (cfg.auto_refund = true → Effect.refund o.id ∈ (handle_new_order cfg σ o).2) ∧
    (cfg.auto_refund = false →
      ∃ e, Effect.send o.chat_id (MsgTag.qtyContactSupport e) ∈ (handle_new_order cfg σ o).2) := by
  unfold handle_new_order
  rcases hbad with hnone | ⟨n, hn, hcond⟩
  · rw [hnone]
    simp only [hsub, ne_eq, not_true_eq_false, if_false]
    cases har : cfg.auto_refund <;>
      simp [nice_refund, har]
  · rw [hn]
    simp only [hsub, ne_eq, not_true_eq_false, if_false]
    rw [if_pos hcond]
    cases har : cfg.auto_refund <;>
      simp [nice_refund, har]

/-- Witness for C3: quantity 150 (not a multiple of 100) from a buyer
parameter, auto-refund on — the store is unchanged and a refund for order
77 is requested. -/
theorem C3_witness :
    (handle_new_order sampleCfg emptyStore
      { id := some 77, subcategory_id := some 714, chat_id := some 1, buyer_id := some 2,
        title := none, buyer_params := [("qty", "150")], amount := none, lot_id := none }).1
      = emptyStore ∧
    Effect.refund (some 77) ∈
      (handle_new_order sampleCfg emptyStore
        { id := some 77, subcategory_id := some 714, chat_id := some 1, buyer_id := some 2,
          title := none, buyer_params := [("qty", "150")], amount := none, lot_id := none }).2 := by
  refine ⟨(C3_invalid_quantity_rejected sampleCfg emptyStore _ rfl ?_).1,
    (C3_invalid_quantity_rejected sampleCfg emptyStore _ rfl ?_).2.1 rfl⟩ <;>
  · right
    exact ⟨150, by decide, by decide⟩

/-- Every element of `insertChat c l` is `c` or an element of `l`. -/
theorem mem_insertChat {x c : PyId} {l : List PyId} (h : x ∈ insertChat c l) :
    x = c ∨ x ∈ l := by
  unfold insertChat at h
  split at h
  · exact Or.inr h
  · rcases List.mem_cons.mp h with h | h
    · exact Or.inl h
    · exact Or.inr h

/-- Discarding `c` from `insertChat c l` empties a set whose only possible
member was `c`. -/
theorem filter_ne_insertChat (c : PyId) (l : List PyId) (h : ∀ x ∈ l, x = c) :
    (insertChat c l).filter (fun x => x != c) = [] := by
  rw [List.filter_eq_nil_iff]
  intro a ha
  rcases mem_insertChat ha with rfl | ha'
  · simp
  · simp [h a ha']

/-- Claim C8 (amended): for a conversation state whose conversation id is
truthy (nonzero and present), `bind` followed by `lookup` under the same
conversation id returns the bound state, and `release` of that id followed
by the same `lookup` returns none provided the buyer has no other open
conversation. -/
theorem C8_amended_bind_lookup_release (σ : Store) (st : ConvState)
    (hc : truthy st.chat_id = true)
    (hno : ∀ x ∈ σ.userToChats st.buyer_id, x = st.chat_id) :
    getState (bindState σ st) st.chat_id st.buyer_id = some st ∧
    getState (popStateByChat (bindState σ st) st.chat_id) st.chat_id st.buyer_id = none := by
  constructor
  · unfold getState bindState
    simp [hc]
  · have hbind : (bindState σ st).stateByChat st.chat_id = some st := by
      simp [bindState]
    unfold popStateByChat
    rw [hbind]
    unfold getState
    have hfil : ((bindState σ st).userToChats st.buyer_id).filter
        (fun x => x != st.chat_id) = [] := by
      unfold bindState
      simp only [if_pos rfl]
      exact filter_ne_insertChat st.chat_id _ hno
    simp [hfil]

/-- Witness for C8 at a concrete state bound into the empty store. -/
theorem C8_witness :
    getState
      (bindState emptyStore
        { step := "waiting_link", order_id := some 3, chat_id := some 10,
          buyer_id := some 20, points := 300, steam_link := none })
      (some 10) (some 20) =
      some { step := "waiting_link", order_id := some 3, chat_id := some 10,
             buyer_id := some 20, points := 300, steam_link := none } ∧
    getState
      (popStateByChat
        (bindState emptyStore
          { step := "waiting_link", order_id := some 3, chat_id := some 10,
            buyer_id := some 20, points := 300, steam_link := none })
        (some 10)) (some 10) (some 20) = none :=
  C8_amended_bind_lookup_release emptyStore _ (by decide) (by intro x hx; cases hx)

/-- State with a falsy (zero) conversation id used to refute C8 as
stated. -/
def c8CexState : ConvState :=
  { step := "waiting_link", order_id := none, chat_id := some 0, buyer_id := some 0,
    points := 100, steam_link := none }

/-- Counterexample to C8 as stated: binding a state whose conversation id
is `0` and looking it up by that same conversation id returns none, not
the bound state, because `_get_state` tests Python truthiness
(`if chat_id`) before the direct lookup. -/
theorem C8_counterexample :
    getState (bindState emptyStore c8CexState) c8CexState.chat_id c8CexState.buyer_id
      ≠ some c8CexState := by
  decide

/-- Claim C9 (amended): for a truthy (nonzero) buyer id, when the given
conversation id is absent from the store and the buyer has exactly one
open conversation, `lookup` returns that conversation's state; when the
buyer has two or more open conversations, it returns none. -/
theorem C9_amended_buyer_fallback (σ : Store) (u b : PyId)
    (hb : truthy b = true)
    (hu : σ.stateByChat u = none) :
    (∀ c st, σ.userToChats b = [c] → σ.stateByChat c = some st →
      getState σ u b = some st) ∧
    (2 ≤ (σ.userToChats b).length → getState σ u b = none) := by
  constructor
  · intro c st h1 h2
    unfold getState
    simp [hu, h1, hb, h2]
  · intro h2
    unfold getState
    have : ¬((σ.userToChats b).length = 1) := by omega
    simp [hu, this]

/-- Witness for C9: buyer 20 has the single open chat 10; lookup with the
unknown chat 99 finds it. -/
theorem C9_witness :
    getState
      (bindState emptyStore
        { step := "waiting_link", order_id := some 3, chat_id := some 10,
          buyer_id := some 20, points := 300, steam_link := none })
      (some 99) (some 20) =
      some { step := "waiting_link", order_id := some 3, chat_id := some 10,
             buyer_id := some 20, points := 300, steam_link := none } :=
  (C9_amended_buyer_fallback _ (some 99) (some 20) (by decide) (by decide)).1
    (some 10) _ (by decide) (by decide)

/-- Store in which buyer `0` has exactly one open conversation, used to
refute C9 as stated. -/
def c9CexStore : Store :=
  bindState emptyStore
    { step := "waiting_link", order_id := none, chat_id := some 5, buyer_id := some 0,
      points := 100, steam_link := none }

/-- Counterexample to C9 as stated: buyer id `0` has exactly one open
conversation and the probed conversation id is absent, yet `lookup`
returns none because `_get_state` tests Python truthiness (`if user_id`)
before the fallback. -/
theorem C9_counterexample :
    c9CexStore.userToChats (some 0) = [some 5] ∧
    (c9CexStore.stateByChat (some 5)).isSome = true ∧
    c9CexStore.stateByChat (some 99) = none ∧
    getState c9CexStore (some 99) (some 0) = none := by
  refine ⟨by decide, by decide, by decide, by decide⟩

/-- Claim C6: in `confirm_order`, a non-`+` reply that validates as a
destination overwrites only the stored destination (step and points are
untouched) and the conversation stays in `confirm_order`; a reply failing
validation changes nothing in the store and only sends a reprompt. -/
theorem C6_confirmation_replacement_link (σ : Store) (m : Message) (st : ConvState)
    (hst : getState σ m.chat_id m.author_id = some st)
    (hstep : st.step = "confirm_order")
    (hplus : msgText m ≠ "+") :
    (steam_link_valid (msgText m) = true →
      handle_new_message σ m =
        (setStateByChat σ st.chat_id { st with steam_link := some (msgText m) },
         [Effect.send m.chat_id .linkUpdated]) ∧
      ({ st with steam_link := some (msgText m) }).step = "confirm_order" ∧
      ({ st with steam_link := some (msgText m) }).points = st.points) ∧
    (steam_link_valid (msgText m) = false →
      handle_new_message σ m = (σ, [Effect.send m.chat_id .invalidLinkConfirm])) := by
  constructor
  · intro hv
    refine ⟨?_, hstep, rfl⟩
    unfold handle_new_message
    rw [hst]
    simp [hstep, hplus, hv]
  · intro hv
    unfold handle_new_message
    rw [hst]
    simp [hstep, hplus, hv]

/-- Conversation state used by the C6 witness. -/
def c6State : ConvState :=
  { step := "confirm_order", order_id := some 3, chat_id := some 10, buyer_id := some 20,
    points := 300, steam_link := some "https://steamcommunity.com/id/a" }

/-- Valid replacement-destination message used by the C6 witness. -/
def c6Msg1 : Message :=
  { author_id := some 20, chat_id := some 10, text := some "https://steamcommunity.com/id/b" }

/-- Invalid replacement-destination message used by the C6 witness. -/
def c6Msg2 : Message :=
  { author_id := some 20, chat_id := some 10, text := some "not a link" }

/-- Witness for C6 in both branches, on a concrete `confirm_order`
state: a valid replacement link updates the destination, an invalid one
leaves the store untouched. -/
theorem C6_witness :
    (handle_new_message (bindState emptyStore c6State) c6Msg1).1.stateByChat (some 10) =
      some { c6State with steam_link := some "https://steamcommunity.com/id/b" } ∧
    handle_new_message (bindState emptyStore c6State) c6Msg2 =
      (bindState emptyStore c6State, [Effect.send (some 10) .invalidLinkConfirm]) := by
  constructor
  · rw [((C6_confirmation_replacement_link (bindState emptyStore c6State) c6Msg1 c6State
      (by decide) rfl (by decide)).1 (by decide)).1]
    decide
  · exact (C6_confirmation_replacement_link (bindState emptyStore c6State) c6Msg2 c6State
      (by decide) rfl (by decide)).2 (by decide)

/-- Claim C10: confirming with `+` dispatches the worker with the state
value as copied at confirmation time and leaves the live state bound; a
later valid destination message only rewrites the live state's
destination; the worker's submission effect carries the copy's units and
destination (not the later ones); and the worker's resulting store is the
release of the live state under the copy's conversation id for every
oracle, exceptions included. -/
theorem C10_dispatch_copy_and_release (cfg : Config) (σ : Store) (st : ConvState)
    (m1 m2 : Message) (w : WorkerOracle)
    (h1 : getState σ m1.chat_id m1.author_id = some st)
    (hstep : st.step = "confirm_order")
    (ht1 : msgText m1 = "+")
    (h2 : getState σ m2.chat_id m2.author_id = some st)
    (ht2 : msgText m2 ≠ "+")
    (hv2 : steam_link_valid (msgText m2) = true) :
    handle_new_message σ m1 = (σ, [Effect.dispatch st]) ∧
    (handle_new_message σ m2).1 =
      setStateByChat σ st.chat_id { st with steam_link := some (msgText m2) } ∧
    (w.exc = false →
      (process_bsp_order cfg (handle_new_message σ m2).1 st w).2.head? =
        some (Effect.bspCreate st.points (st.steam_link.getD ""))) ∧
    (process_bsp_order cfg (handle_new_message σ m2).1 st w).1 =
      popStateByChat (handle_new_message σ m2).1 st.chat_id := by
  refine ⟨?_, ?_, ?_, ?_⟩
  · unfold handle_new_message
    rw [h1]
    simp [hstep, ht1]
  · unfold handle_new_message
    rw [h2]
    simp [hstep, ht2, hv2]
  · intro hexc
    unfold process_bsp_order
    simp [hexc]
  · rfl

/-- Conversation state used by the C10 witness. -/
def c10State : ConvState :=
  { step := "confirm_order", order_id := some 7, chat_id := some 11, buyer_id := some 21,
    points := 500, steam_link := some "https://steamcommunity.com/id/old" }

/-- Confirmation message used by the C10 witness. -/
def c10Msg1 : Message := { author_id := some 21, chat_id := some 11, text := some "+" }

/-- Replacement-destination message used by the C10 witness. -/
def c10Msg2 : Message :=
  { author_id := some 21, chat_id := some 11, text := some "https://steamcommunity.com/id/new" }

/-- Worker oracle with an in-worker exception, used by the C10 witness. -/
def c10Oracle : WorkerOracle :=
  { resp := none, exc := true, refundRaises := false, bal := none }

/-- Witness for C10: the dispatch carries the confirmation-time copy, and
the worker releases the live state even on its exception path. -/
theorem C10_witness :
    handle_new_message (bindState emptyStore c10State) c10Msg1 =
      (bindState emptyStore c10State, [Effect.dispatch c10State]) ∧
    (process_bsp_order sampleCfg
        (handle_new_message (bindState emptyStore c10State) c10Msg2).1 c10State c10Oracle).1 =
      popStateByChat (handle_new_message (bindState emptyStore c10State) c10Msg2).1
        c10State.chat_id :=
  ⟨(C10_dispatch_copy_and_release sampleCfg (bindState emptyStore c10State) c10State
      c10Msg1 c10Msg2 c10Oracle (by decide) rfl (by decide) (by decide) (by decide)
      (by decide)).1,
   (C10_dispatch_copy_and_release sampleCfg (bindState emptyStore c10State) c10State
      c10Msg1 c10Msg2 c10Oracle (by decide) rfl (by decide) (by decide) (by decide)
      (by decide)).2.2.2⟩

/-- Claim C4: with no fixed per-lot multiplier configured, title detection
enabled, no `от N` marker, and a first `N points` phrase in the title
whose captured `N` is positive, at least the configured minimum and a
multiple of 100, `get_points` returns `N` times the item count, the item
count defaulting to 1 when absent or unparsable and floored at 1
(`pyUnits`). -/
theorem C4_title_detection_total (cfg : Config) (o : Order) (N : Nat)
    (hfix : fixedByLot cfg o = none)
    (htd : cfg.allow_title_detection = true)
    (hfrom : searchFrom (orderTitle o) = false)
    (hpts : searchPts (orderTitle o) = some N)
    (hNpos : 0 < N)
    (hmin : cfg.min_points ≤ (N : Int))
    (hdiv : N % 100 = 0) :
    get_points cfg o = some ((N : Int) * pyUnits o.amount) := by
  have hdet : detect_fixed_unit_points cfg o = some (N : Int) := by
    unfold detect_fixed_unit_points
    rw [hfix, htd]
    simp only [Bool.not_true, Bool.false_eq_true, if_false, hfrom, hpts]
    rw [if_pos ⟨hmin, hdiv⟩]
  have hne : (N : Int) ≠ 0 := by exact_mod_cast hNpos.ne'
  unfold get_points
  rw [hdet]
  simp [hne]

/-- Order used by the C4 witness: title `500 points`, item count 2. -/
def c4Order : Order :=
  { id := some 5, subcategory_id := some 714, chat_id := some 1, buyer_id := some 2,
    title := some "500 points", buyer_params := [], amount := some "2", lot_id := none }

/-- Witness for C4: the title yields 500 per unit and the item count is 2,
so 1000 points are resolved. -/
theorem C4_witness :
    searchPts (orderTitle c4Order) = some 500 ∧
    get_points sampleCfg c4Order = some 1000 :=
  ⟨by decide,
   C4_title_detection_total sampleCfg c4Order 500 (by decide) rfl (by decide) (by decide)
     (by decide) (by decide) (by decide)⟩

/-! ### Claim C5: characterizing the destination validator -/

/-- Success of `dropLit` is exactly a literal-prefix decomposition. -/
theorem dropLit_eq_some {ps : List Char} :
    ∀ {l r : List Char}, dropLit ps l = some r ↔ l = ps ++ r := by
  induction ps with
  | nil => intro l r; simp [dropLit]
  | cons p ps ih =>
    intro l r
    cases l with
    | nil => simp [dropLit]
    | cons c cs =>
      by_cases h : c = p
      · subst h
        simp [dropLit, ih]
      · simp [dropLit, h]

/-- One decomposition of a destination URL, stated on normalized
(stripped, case-folded) text: the given scheme, subdomain and path pieces
around `steamcommunity.com/`, then a nonempty token of characters from
the letters-digits-underscore-dot-slash-hyphen class.  This is the
spec-side description of an accepted URL shape, against which the source
validator is compared. -/
def SteamShapeDecomp (scheme www path : String) (l : List Char) : Prop :=
  ∃ tok : List Char, tok ≠ [] ∧ (∀ c ∈ tok, steamTokenChar c = true) ∧
    l = scheme.data ++ www.data ++ "steamcommunity.com/".data ++ path.data ++ "/".data ++ tok

/-- The two accepted profile URL shapes with scheme `http` or `https`. -/
def AcceptedSteamShape (l : List Char) : Prop :=
  ∃ scheme www path, (scheme = "http://" ∨ scheme = "https://") ∧
    (www = "" ∨ www = "www.") ∧ (path = "id" ∨ path = "profiles") ∧
    SteamShapeDecomp scheme www path l

/-- The claim's shapes: `https` scheme only, as the spec words them. -/
def ClaimHttpsShape (l : List Char) : Prop :=
  ∃ www path, (www = "" ∨ www = "www.") ∧ (path = "id" ∨ path = "profiles") ∧
    SteamShapeDecomp "https://" www path l

/-- Packaging lemma for `AcceptedSteamShape`. -/
theorem acceptedShape_intro (scheme www path : String) (l tok : List Char)
    (hs : scheme = "http://" ∨ scheme = "https://") (hw : www = "" ∨ www = "www.")
    (hp : path = "id" ∨ path = "profiles") (hne : tok ≠ [])
    (hall : ∀ c ∈ tok, steamTokenChar c = true)
    (heq : l = scheme.data ++ www.data ++ "steamcommunity.com/".data ++ path.data
      ++ "/".data ++ tok) :
    AcceptedSteamShape l :=
  ⟨scheme, www, path, hs, hw, hp, tok, hne, hall, heq⟩

/-- The matcher for `RE_STEAM_LINK` accepts exactly the decompositions of
`AcceptedSteamShape`. -/
theorem reSteamLinkMatch_iff (l : List Char) :
    reSteamLinkMatch l = true ↔ AcceptedSteamShape l := by
  constructor
  · intro h
    unfold reSteamLinkMatch at h
    cases h1 : dropLit "http".data l with
    | none => simp [h1] at h
    | some l1 =>
      simp only [h1] at h
      cases h3 : dropLit "://".data (optTake ['s'] l1) with
      | none => simp [h3] at h
      | some l3 =>
        simp only [h3] at h
        cases h5 : dropLit "steamcommunity.com/".data (optTake "www.".data l3) with
        | none => simp [h5] at h
        | some l5 =>
          simp only [h5] at h
          cases h6 : pathSplit l5 with
          | none => simp [h6] at h
          | some l6 =>
            simp only [h6] at h
            have hne : l6 ≠ [] := by
              rcases Bool.and_eq_true .. |>.mp h with ⟨ha, _⟩
              cases l6 with
              | nil => simp at ha
              | cons a t => simp
            have hall : ∀ c ∈ l6, steamTokenChar c = true := by
              rcases Bool.and_eq_true .. |>.mp h with ⟨_, hb2⟩
              exact List.all_eq_true.mp hb2
            have hl : l = "http".data ++ l1 := dropLit_eq_some.mp h1
            -- resolve the path alternation
            have hpath : (l5 = "id/".data ++ l6) ∨ (l5 = "profiles/".data ++ l6) := by
              unfold pathSplit at h6
              cases hid : dropLit "id/".data l5 with
              | none =>
                rw [hid] at h6
                exact Or.inr (dropLit_eq_some.mp h6)
              | some r =>
                rw [hid] at h6
                cases h6
                exact Or.inl (dropLit_eq_some.mp hid)
            -- resolve the two optional pieces and assemble
            cases hs : dropLit ['s'] l1 with
            | some l2 =>
              have hsl : l1 = 's' :: l2 := dropLit_eq_some.mp hs
              have hopt : optTake ['s'] l1 = l2 := by unfold optTake; rw [hs]
              rw [hopt] at h3
              have hl2 : l2 = "://".data ++ l3 := dropLit_eq_some.mp h3
              cases hw : dropLit "www.".data l3 with
              | some l4 =>
                have hwl : l3 = "www.".data ++ l4 := dropLit_eq_some.mp hw
                have hopt2 : optTake "www.".data l3 = l4 := by unfold optTake; rw [hw]
                rw [hopt2] at h5
                have hl4 : l4 = "steamcommunity.com/".data ++ l5 := dropLit_eq_some.mp h5
                rcases hpath with hp | hp
                · exact acceptedShape_intro "https://" "www." "id" l l6 (Or.inr rfl)
                    (Or.inr rfl) (Or.inl rfl) hne hall
                    (by rw [hl, hsl, hl2, hwl, hl4, hp]; rfl)
                · exact acceptedShape_intro "https://" "www." "profiles" l l6 (Or.inr rfl)
                    (Or.inr rfl) (Or.inr rfl) hne hall
                    (by rw [hl, hsl, hl2, hwl, hl4, hp]; rfl)
              | none =>
                have hopt2 : optTake "www.".data l3 = l3 := by unfold optTake; rw [hw]
                rw [hopt2] at h5
                have hl4 : l3 = "steamcommunity.com/".data ++ l5 := dropLit_eq_some.mp h5
                rcases hpath with hp | hp
                · exact acceptedShape_intro "https://" "" "id" l l6 (Or.inr rfl)
                    (Or.inl rfl) (Or.inl rfl) hne hall
                    (by rw [hl, hsl, hl2, hl4, hp]; rfl)
                · exact acceptedShape_intro "https://" "" "profiles" l l6 (Or.inr rfl)
                    (Or.inl rfl) (Or.inr rfl) hne hall
                    (by rw [hl, hsl, hl2, hl4, hp]; rfl)
            | none =>
              have hopt : optTake ['s'] l1 = l1 := by unfold optTake; rw [hs]
              rw [hopt] at h3
              have hl2 : l1 = "://".data ++ l3 := dropLit_eq_some.mp h3
              cases hw : dropLit "www.".data l3 with
              | some l4 =>
                have hwl : l3 = "www.".data ++ l4 := dropLit_eq_some.mp hw
                have hopt2 : optTake "www.".data l3 = l4 := by unfold optTake; rw [hw]
                rw [hopt2] at h5
                have hl4 : l4 = "steamcommunity.com/".data ++ l5 := dropLit_eq_some.mp h5
                rcases hpath with hp | hp
                · exact acceptedShape_intro "http://" "www." "id" l l6 (Or.inl rfl)
                    (Or.inr rfl) (Or.inl rfl) hne hall
                    (by rw [hl, hl2, hwl, hl4, hp]; rfl)
                · exact acceptedShape_intro "http://" "www." "profiles" l l6 (Or.inl rfl)
                    (Or.inr rfl) (Or.inr rfl) hne hall
                    (by rw [hl, hl2, hwl, hl4, hp]; rfl)
              | none =>
                have hopt2 : optTake "www.".data l3 = l3 := by unfold optTake; rw [hw]
                rw [hopt2] at h5
                have hl4 : l3 = "steamcommunity.com/".data ++ l5 := dropLit_eq_some.mp h5
                rcases hpath with hp | hp
                · exact acceptedShape_intro "http://" "" "id" l l6 (Or.inl rfl)
                    (Or.inl rfl) (Or.inl rfl) hne hall
                    (by rw [hl, hl2, hl4, hp]; rfl)
                · exact acceptedShape_intro "http://" "" "profiles" l l6 (Or.inl rfl)
                    (Or.inl rfl) (Or.inr rfl) hne hall
                    (by rw [hl, hl2, hl4, hp]; rfl)
  · rintro ⟨scheme, www, path, hs, hw, hp, tok, hne, hall, rfl⟩
    have h1 : tok.isEmpty = false := by
      cases tok with
      | nil => exact absurd rfl hne
      | cons a t => rfl
    have hb : (!tok.isEmpty && tok.all steamTokenChar) = true := by
      simp [h1, List.all_eq_true]
      exact hall
    rcases hs with rfl | rfl <;> rcases hw with rfl | rfl <;> rcases hp with rfl | rfl <;>
      exact hb

/-- Claim C5 (amended): the validator returns true exactly for those
strings whose whitespace-stripped, case-folded form decomposes as one of
the two accepted profile URL shapes with scheme `http` or `https`
(`re.match` of `RE_STEAM_LINK` runs on the stripped input and the pattern
begins `https?`). -/
theorem C5_amended_validator_iff (s : String) :
    steam_link_valid s = true ↔ AcceptedSteamShape (normalizeLink s) :=
  reSteamLinkMatch_iff (normalizeLink s)

/-- Witness for C5: a concrete `https` destination both decomposes and
validates. -/
theorem C5_witness :
    steam_link_valid "https://steamcommunity.com/id/ab" = true :=
  (C5_amended_validator_iff "https://steamcommunity.com/id/ab").mpr
    ⟨"https://", "", "id", Or.inr rfl, Or.inl rfl, Or.inl rfl,
     ['a', 'b'], by decide, by decide, rfl⟩

/-- No list starting like `http://...` equals `https://` followed by
anything: the fifth characters differ. -/
theorem c5cex_ne_https (rest : List Char) :
    normalizeLink "http://steamcommunity.com/id/abc" ≠ "https://".data ++ rest := by
  intro h
  have h' : 'h' :: 't' :: 't' :: 'p' :: ':' :: "//steamcommunity.com/id/abc".data =
      "https://".data ++ rest := h
  injection h' with e1 h'
  injection h' with e2 h'
  injection h' with e3 h'
  injection h' with e4 h'
  injection h' with e5 h'
  exact absurd e5 (by decide)

/-- Counterexample to C5 as stated: `http://steamcommunity.com/id/abc`
matches neither of the two `https` shapes the claim describes, yet the
validator returns true (the pattern's scheme is `https?`). -/
theorem C5_counterexample :
    steam_link_valid "http://steamcommunity.com/id/abc" = true ∧
    ¬ ClaimHttpsShape (normalizeLink "http://steamcommunity.com/id/abc") := by
  refine ⟨by decide, ?_⟩
  rintro ⟨www, path, hw, hp, tok, hne, hall, heq⟩
  exact c5cex_ne_https _ heq

end BotPoint
